import Mathlib

/-!
Verification development for the publish scheduler of `tracker_location.cpp`
(tracker-edge).  The definitions below are a shallow embedding of the C++
source: 32-bit unsigned arithmetic is modelled on `Nat` with explicit
wrap-around (`add32` / `sub32`), struct state becomes Lean structures, and
external effects (callbacks issued, reports composed) are returned
explicitly.  Each claim theorem states one property of this embedding.
-/

namespace TrackerLocation

/-- Modulus 2^32 of the `uint32_t` arithmetic used by the source. -/
def w32 : Nat := 4294967296

/-- Addition of `uint32_t` values (wraps mod 2^32). -/
def add32 (a b : Nat) : Nat := (a + b) % w32

/-- Subtraction of `uint32_t` values (wraps mod 2^32). -/
def sub32 (a b : Nat) : Nat := (w32 + a % w32 - b % w32) % w32

/-- Constant `LockTimeoutSec` of tracker_location.cpp (seconds). -/
def LockTimeoutSec : Nat := 10

/-- Constant `EarlySleepSec` of tracker_location.cpp (seconds). -/
def EarlySleepSec : Nat := 2

/-- Constant `MiscSleepWakeSec` of tracker_location.cpp (seconds). -/
def MiscSleepWakeSec : Nat := 3

/-- Length of the C string literal in `ObjectEstimateWpsHeaderSize`
(sizeof of a 12-byte literal minus its null byte). -/
def ObjectEstimateWpsHeaderSize : Nat := 11

/-- Length of the C string literal in `ObjectEstimateWpsDataSize`
(sizeof of a 50-byte literal minus its null byte). -/
def ObjectEstimateWpsDataSize : Nat := 49

/-- Errno value EBUSY (newlib), used as `-EBUSY` by the send path. -/
def EBUSY : Int := 16

/-- Errno value EINVAL (newlib), used as `-EINVAL` by config validation. -/
def EINVAL : Int := 22

/-- Enum `PublishReason` of tracker_location.h, as consumed by the source. -/
inductive PublishReason where
  | NONE
  | TIME
  | TRIGGERS
  | IMMEDIATE
deriving DecidableEq, Repr

/-- Request kind `Trigger` of `TrackerLocation::triggerLocPub`. -/
inductive Trigger where
  | NORMAL
  | IMMEDIATE
deriving DecidableEq, Repr

/-- Classification `GnssState` returned by `loopLocation`. -/
inductive GnssState where
  | DISABLED
  | OFF
  | ERROR
  | ON_UNLOCKED
  | ON_LOCKED_UNSTABLE
  | ON_LOCKED_STABLE
deriving DecidableEq, Repr

/-- Values of `CloudServiceStatus` handled by `location_publish_cb`. -/
inductive CloudServiceStatus where
  | SUCCESS
  | FAILURE
  | TIMEOUT
deriving DecidableEq, Repr

/-- Record `EvaluationResults` returned by `TrackerLocation::evaluatePublish`. -/
structure EvaluationResults where
  reason : PublishReason
  networkNeeded : Bool
  lockWait : Bool
deriving DecidableEq, Repr

/-- Struct `tracker_location_config_t`: the live/shadow scheduling configuration.
The interval fields are `int32_t` in C but are range-limited to 0..86400 by
the `ConfigInt` bounds registered in `init`, so they are carried as `Nat`. -/
structure TrackerLocationConfig where
  interval_min_seconds : Nat
  interval_max_seconds : Nat
  min_publish : Bool
  lock_trigger : Bool
  process_ack : Bool
  tower : Bool
  gnss : Bool
  wps : Bool
  enhance_loc : Bool
  loc_cb : Bool
deriving DecidableEq, Repr

/-- The mutable member state of `TrackerLocation` used by the modelled
operations.  Completion callbacks are abstracted as identifiers (`Nat`);
`location_publish_retry_str` is the optional retry buffer contents. -/
structure LocState where
  pending_immediate : Bool
  pending_triggers : List String
  first_publish : Bool
  pending_first_publish : Bool
  newMonotonic : Bool
  last_location_publish_sec : Nat
  monotonic_publish_sec : Nat
  gnssStartedSec : Nat
  nextEarlyWake : Nat
  earlyWake : Nat
  firstLockSec : Nat
  retry_str : Option String
  locPubCallbacks : List Nat
  pendingLocPubCallbacks : List Nat
deriving DecidableEq, Repr

/-- One completion-callback invocation: which registered callback ran, with
which transport status and which request text (NULL becomes `none`). -/
structure Issued where
  cb : Nat
  status : CloudServiceStatus
  req_event : Option String
deriving DecidableEq, Repr

/-- Embedding of `TrackerLocation::evaluatePublish` (tracker_location.cpp lines 437-503).
`connectingTime` is `_sleep.getConfigConnectingTime()` and `now` the
`System.uptime()` read at entry. -/
def evaluatePublish (cfg : TrackerLocationConfig) (connectingTime now : Nat)
    (st : LocState) : EvaluationResults :=
  if st.pending_immediate then
    { reason := .IMMEDIATE, networkNeeded := true, lockWait := false }
  else if st.first_publish && !st.pending_first_publish then
    { reason := .TRIGGERS, networkNeeded := true,
      lockWait := decide (sub32 now st.gnssStartedSec < connectingTime) }
  else
    let interval := sub32 now st.last_location_publish_sec
    let maxInterval := sub32 now st.monotonic_publish_sec
    let maxv := cfg.interval_max_seconds
    let maxNetwork := if maxv > st.nextEarlyWake then maxv - st.nextEarlyWake else maxv
    let networkNeeded1 := decide (cfg.interval_max_seconds ≠ 0 ∧ maxInterval ≥ maxNetwork)
    if cfg.interval_max_seconds ≠ 0 ∧ maxInterval ≥ maxv then
      { reason := .TIME, networkNeeded := true,
        lockWait := decide (maxInterval - maxv < LockTimeoutSec) }
    else
      let minv := cfg.interval_min_seconds
      let minNetwork := if minv > st.nextEarlyWake then minv - st.nextEarlyWake else minv
      let networkNeeded2 := networkNeeded1 ||
        decide (st.pending_triggers ≠ [] ∧
          (cfg.interval_min_seconds = 0 ∨ interval ≥ minNetwork))
      if st.pending_triggers ≠ [] ∧ (cfg.interval_min_seconds = 0 ∨ interval ≥ minv) then
        { reason := .TRIGGERS, networkNeeded := true,
          lockWait := decide (interval - minv < LockTimeoutSec) }
      else
        { reason := .NONE, networkNeeded := networkNeeded2, lockWait := false }

/-- Embedding of `TrackerLocation::triggerLocPub` (lines 259-284): deduplicating append of
the trigger name (strcmp equality), plus the immediate-request flag when the
trigger kind is `IMMEDIATE`. -/
def triggerLocPub (ty : Trigger) (s : String) (st : LocState) : LocState :=
  let matched := st.pending_triggers.contains s
  let st1 :=
    if matched then st
    else { st with pending_triggers := st.pending_triggers ++ [s] }
  if ty = Trigger.IMMEDIATE then { st1 with pending_immediate := true } else st1

/-- The trigger-list part of `TrackerLocation::buildPublish` (lines 905-913):
when the pending list is non-empty it is written as the report trig array
and cleared.  Returns (trig array written, remaining pending list). -/
def buildPublishTrig (l : List String) : List String × List String :=
  if l.isEmpty then ([], l) else (l, [])

/-- Embedding of `TrackerLocation::issue_location_publish_callbacks` (lines 286-293):
invoke every pending completion callback with the given status / request
text, then clear the pending list. -/
def issue_location_publish_callbacks (status : CloudServiceStatus)
    (req_event : Option String) (st : LocState) : LocState × List Issued :=
  ({ st with pendingLocPubCallbacks := [] },
   st.pendingLocPubCallbacks.map fun c =>
     { cb := c, status := status, req_event := req_event })

/-- Embedding of `TrackerLocation::location_publish_cb` (lines 295-342).  `allocOk`
models whether the `malloc` of the retry buffer succeeds. -/
def location_publish_cb (status : CloudServiceStatus) (req_event : Option String)
    (allocOk : Bool) (st : LocState) : LocState × List Issued :=
  match status with
  | .SUCCESS =>
    issue_location_publish_callbacks .SUCCESS req_event
      { st with first_publish := false, pending_first_publish := false }
  | .FAILURE =>
    if req_event.isSome ∧ st.retry_str = none then
      if allocOk then
        ({ st with retry_str := req_event }, [])
      else
        issue_location_publish_callbacks .FAILURE req_event st
    else
      issue_location_publish_callbacks .FAILURE req_event st
  | .TIMEOUT =>
    issue_location_publish_callbacks .TIMEOUT req_event st

/-- Embedding of `TrackerLocation::location_publish` (lines 344-410).  `sendResult` is
the return of `cloud_service.send` (the retry string is sent when present,
otherwise the freshly composed writer buffer `composed`); `allocOk` models
the `malloc` in the `-EBUSY` branch. -/
def location_publish (sendResult : Int) (composed : String) (allocOk : Bool)
    (st : LocState) : LocState × List Issued :=
  if sendResult = -EBUSY then
    if st.retry_str = none then
      if allocOk then
        ({ st with retry_str := some composed }, [])
      else
        issue_location_publish_callbacks .FAILURE (some composed) st
    else
      (st, [])
  else
    let step :=
      if sendResult ≠ 0 then
        issue_location_publish_callbacks .FAILURE st.retry_str st
      else (st, [])
    ({ step.1 with retry_str := none }, step.2)

/-- Embedding of `TrackerLocation::exit_location_config_cb` (lines 69-80): on a writing
transaction that carried no prior error, reject a shadow copy violating
min ≤ max with `-EINVAL` (leaving the live state untouched), otherwise
memcpy the entire shadow into the live state.  Returns (status, live
configuration afterwards). -/
def exit_location_config_cb (write : Bool) (status : Int)
    (live shadow : TrackerLocationConfig) : Int × TrackerLocationConfig :=
  if write ∧ status = 0 then
    if shadow.interval_min_seconds > shadow.interval_max_seconds then
      (-EINVAL, live)
    else
      (status, shadow)
  else
    (status, live)

/-- Record for a scanned WiFi access point (fields of the system `WiFiAccessPoint`
used by `buildWpsInfo`). -/
structure WiFiAccessPoint where
  bssid : String
  channel : Nat
  rssi : Int
deriving DecidableEq, Repr

/-- Embedding of `TrackerLocation::wifi_cb` (lines 757-760) applied across one scan:
each reported access point is appended while the collected list is still
below `maxCollect` (`TrackerLocationMaxWpsCollect`). -/
def wifi_cb_collect (maxCollect : Nat) (scan : List WiFiAccessPoint) :
    List WiFiAccessPoint :=
  scan.foldl (fun acc ap => if acc.length < maxCollect then acc ++ [ap] else acc) []

/-- Embedding of `TrackerLocation::buildWpsInfo` (lines 762-807), returning the list of
WiFi entries written into the report.  `size` is the remaining byte budget;
the emission loop writes the first `wpsCount` collected entries. -/
def buildWpsInfo (wps_enabled : Bool) (size maxCollect : Nat)
    (scan : List WiFiAccessPoint) : List WiFiAccessPoint :=
  if !wps_enabled then []
  else if ObjectEstimateWpsHeaderSize ≥ size then []
  else
    let wpsCount := (size - ObjectEstimateWpsHeaderSize) / ObjectEstimateWpsDataSize
    if wpsCount = 0 then []
    else
      let wpsList := wifi_cb_collect maxCollect scan
      if wpsList.isEmpty then []
      else wpsList.take wpsCount

/-- Reinterpret a `uint32_t` value as `int32_t` (the casts in
`onSleepPrepare`'s publish-variance computation). -/
def toInt32 (n : Nat) : Int :=
  let m := n % w32
  if m < 2147483648 then (m : Int) else (m : Int) - (w32 : Int)

/-- Result kind of the sleep wake-scheduling call. -/
inductive TrackerSleepError where
  | NONE
  | TIME_IN_PAST
deriving DecidableEq, Repr

/-- Modelled from the spec: `TrackerSleep::wakeAtSeconds` lives outside
src/; the spec's sleep coordinator description says a requested wake time
"already in the past" is answered with the past-time error (here: the
requested second is below the current uptime). -/
def wakeAtSeconds (wakeSec now : Nat) : TrackerSleepError :=
  if wakeSec < now then .TIME_IN_PAST else .NONE

/-- Outputs of `onSleepPrepare`: the updated early-wake state and the wake
time finally requested from the sleep layer (0 spoils the sleep attempt). -/
structure SleepPrepareOut where
  nextEarlyWake : Nat
  earlyWake : Nat
  requestedWake : Nat
deriving DecidableEq, Repr

/-- The early-wake computation of `TrackerLocation::onSleepPrepare` (lines
520-549): the pair (`_nextEarlyWake`, `_earlyWake`) after the callback. -/
def sleepPrepareEarlyWake (t_conn : Nat) (isFullWakeCycle : Bool)
    (lastWakeMs : Nat) (st : LocState) : Nat × Nat :=
  if isFullWakeCycle then
    let lastWakeSec := (lastWakeMs + 500) / 1000
    let lastWakeSec :=
      if lastWakeSec ≥ MiscSleepWakeSec then lastWakeSec - MiscSleepWakeSec
      else lastWakeSec
    let wakeToLockDurationSec :=
      if st.firstLockSec = 0 then t_conn else sub32 st.firstLockSec lastWakeSec
    let publishVariance : Int :=
      toInt32 st.last_location_publish_sec - toInt32 st.monotonic_publish_sec
    let newEarlyWakeSec :=
      (((wakeToLockDurationSec : Int) + publishVariance + 1).emod (w32 : Int)).toNat
    let newEarlyWakeSec := if newEarlyWakeSec > t_conn then t_conn else newEarlyWakeSec
    (newEarlyWakeSec, newEarlyWakeSec)
  else
    ((if st.earlyWake = 0 then t_conn else st.earlyWake), st.earlyWake)

/-- Embedding of `TrackerLocation::onSleepPrepare` (lines 507-564).  `t_conn` is
`_sleep.getConfigConnectingTime()`, `lastWakeMs` is `context.lastWakeMs`,
`now` the current uptime seen by `wakeAtSeconds`. -/
def onSleepPrepare (cfg : TrackerLocationConfig) (t_conn : Nat)
    (isFullWakeCycle : Bool) (lastWakeMs : Nat) (now : Nat)
    (st : LocState) : SleepPrepareOut :=
  let interval := if st.pending_triggers ≠ [] then cfg.interval_min_seconds
                  else cfg.interval_max_seconds
  let wake := add32 st.last_location_publish_sec interval
  let ew := sleepPrepareEarlyWake t_conn isFullWakeCycle lastWakeMs st
  let nextEarlyWake := ew.1
  let wake := if wake > nextEarlyWake then wake - nextEarlyWake else wake
  let wakeRet := wakeAtSeconds wake now
  let wake := if wakeRet = .TIME_IN_PAST then 0 else wake
  { nextEarlyWake := ew.1, earlyWake := ew.2, requestedWake := wake }

/-- Per-pass environment of `TrackerLocation::loop`: external readings and
transport outcomes of this pass.  All `System.uptime()` reads within the
pass are modelled as the single value `now` (the loop body executes within
one second). -/
structure LoopEnv where
  now : Nat
  connected : Bool
  gnssState : GnssState
  isFullWakeCycle : Bool
  connectingTime : Nat
  retrySendResult : Int
  newSendResult : Int
  allocOk : Bool
  composed : String
deriving DecidableEq, Repr

/-- The decision switch of `TrackerLocation::loop` (lines 1007-1078):
given the evaluation result and the GNSS classification, update the state
(the "time" trigger, the immediate flag, `_newMonotonic`) and decide
`publishNow`.  A `switch` falling through every case (GNSS `ERROR`) leaves
`publishNow` false. -/
def loopDecide (publishReason : EvaluationResults) (gnssState : GnssState)
    (st1 : LocState) : LocState × Bool :=
  match publishReason.reason with
  | .NONE => (st1, false)
  | .TIME =>
    match gnssState with
    | .DISABLED => (triggerLocPub .NORMAL "time" st1, true)
    | .ON_LOCKED_STABLE => (triggerLocPub .NORMAL "time" st1, true)
    | .OFF | .ON_UNLOCKED | .ON_LOCKED_UNSTABLE =>
      if !publishReason.lockWait then (triggerLocPub .NORMAL "time" st1, true)
      else (st1, false)
    | .ERROR => (st1, false)
  | .TRIGGERS =>
    match gnssState with
    | .DISABLED => ({ st1 with newMonotonic := true }, true)
    | .ON_LOCKED_STABLE => ({ st1 with newMonotonic := true }, true)
    | .OFF | .ON_UNLOCKED | .ON_LOCKED_UNSTABLE =>
      if !publishReason.lockWait then ({ st1 with newMonotonic := true }, true)
      else (st1, false)
    | .ERROR => (st1, false)
  | .IMMEDIATE =>
    ({ st1 with pending_immediate := false, newMonotonic := true }, true)

/-- The publish block of `TrackerLocation::loop` (lines 1085-1122), entered
with `publishNow` and a live connection: discard a stale retry with TIMEOUT
callbacks, compose the report (draining pending triggers), swap in the
one-shot completion callbacks, update the last-publish time and monotonic
anchor, guard first-publish flooding, send, and arm the pending-first flag.
Returns (state, callbacks issued, trig list of the composed report). -/
def loopPublishBlock (now : Nat) (sendResult : Int) (composed : String)
    (allocOk : Bool) (cfg : TrackerLocationConfig) (st2 : LocState) :
    LocState × List Issued × List String :=
  let staleStep :=
    match st2.retry_str with
    | some r =>
      let issued := issue_location_publish_callbacks .TIMEOUT (some r) st2
      ({ issued.1 with retry_str := none }, issued.2)
    | none => (st2, [])
  let st3 := staleStep.1
  let ev2 := staleStep.2
  -- buildPublish drains the pending triggers into the report
  let report := st3.pending_triggers
  let st4 := { st3 with pending_triggers := [] }
  let st5 := { st4 with pendingLocPubCallbacks := st4.locPubCallbacks,
                        locPubCallbacks := [] }
  let lastv := now
  let monoStep :=
    if (st5.first_publish && !st5.pending_first_publish) || st5.newMonotonic then
      (lastv, false)
    else
      (add32 st5.monotonic_publish_sec cfg.interval_max_seconds, st5.newMonotonic)
  let st6 := { st5 with last_location_publish_sec := lastv,
                        monotonic_publish_sec := monoStep.1,
                        newMonotonic := monoStep.2 }
  let st7 :=
    if !cfg.process_ack && st6.first_publish then
      { st6 with first_publish := false }
    else st6
  let sendStep := location_publish sendResult composed allocOk st7
  let st8 := sendStep.1
  let ev3 := sendStep.2
  let st9 :=
    if st8.first_publish && !st8.pending_first_publish then
      { st8 with pending_first_publish := true }
    else st8
  (st9, ev2 ++ ev3, report)

/-- The evaluate/decide/publish part of `TrackerLocation::loop` (lines
988-1123), applied to the state left by the retry resend: `evaluatePublish`
(line 989), the late network enable refreshing `_gnssStartedSec` (lines
993-995), the decision switch, and the publish block guarded by
`publishNow && Particle.connected()`. -/
def loopTailCore (env : LoopEnv) (cfg : TrackerLocationConfig) (st1 : LocState) :
    LocState × List Issued × List (List String) :=
  let publishReason := evaluatePublish cfg env.connectingTime env.now st1
  let st1 :=
    if !env.isFullWakeCycle && publishReason.networkNeeded then
      { st1 with gnssStartedSec := env.now }
    else st1
  let decision := loopDecide publishReason env.gnssState st1
  if decision.2 && env.connected then
    let p := loopPublishBlock env.now env.newSendResult env.composed env.allocOk cfg decision.1
    (p.1, p.2.1, [p.2.2])
  else
    (decision.1, [], [])

/-- The decision-and-publish tail of `TrackerLocation::loop` (lines
977-1123): the retry resend of lines 978-982 followed by `loopTailCore`.
Returns the new state, the completion-callback invocations issued during
the pass, and the trig lists of the reports composed by `buildPublish`
(empty when no payload was composed). -/
def loopTail (env : LoopEnv) (cfg : TrackerLocationConfig) (st0 : LocState) :
    LocState × List Issued × List (List String) :=
  let retryStep :=
    if st0.retry_str.isSome && env.connected then
      location_publish env.retrySendResult env.composed env.allocOk st0
    else (st0, [])
  let t := loopTailCore env cfg retryStep.1
  (t.1, retryStep.2 ++ t.2.1, t.2.2)

/-- Iterated `triggerLocPub` of one name: `n` repeated requests. -/
def requestN : Nat → Trigger → String → LocState → LocState
  | 0, _, _, st => st
  | n + 1, ty, s, st => triggerLocPub ty s (requestN n ty s st)

/-- Baseline idle state: nothing pending, all clocks at zero. -/
def baseState : LocState :=
  { pending_immediate := false, pending_triggers := [], first_publish := false,
    pending_first_publish := false, newMonotonic := false,
    last_location_publish_sec := 0, monotonic_publish_sec := 0,
    gnssStartedSec := 0, nextEarlyWake := 0, earlyWake := 0, firstLockSec := 0,
    retry_str := none, locPubCallbacks := [], pendingLocPubCallbacks := [] }

/-- Configuration with interval_min = 60 s and interval_max = 600 s. -/
def cfgMinMax : TrackerLocationConfig :=
  { interval_min_seconds := 60, interval_max_seconds := 600,
    min_publish := false, lock_trigger := false, process_ack := false,
    tower := false, gnss := false, wps := false, enhance_loc := false, loc_cb := false }

/-- Snapshot for C1's counterexample: interval_max = 5, lead = 5, 3 s elapsed. -/
def c1ctrCfg : TrackerLocationConfig :=
  { cfgMinMax with interval_max_seconds := 5 }

/-- State for C1's counterexample. -/
def c1ctrSt : LocState :=
  { baseState with last_location_publish_sec := 3, nextEarlyWake := 5 }

/-- State for C1's witness: lead 10, anchor at 0. -/
def c1wSt : LocState :=
  { baseState with nextEarlyWake := 10 }

/-- Snapshot family for C2: trigger "user" pending, lead as given, last
publish and anchor at uptime 0. -/
def c2state (lead : Nat) : LocState :=
  { baseState with pending_triggers := ["user"], nextEarlyWake := lead }

/-- State for C3's witness: two registered completion callbacks pending. -/
def c3wSt : LocState :=
  { baseState with pendingLocPubCallbacks := [1, 2] }

/-- State for C4's witness: one completion callback pending. -/
def c4wSt : LocState :=
  { baseState with pendingLocPubCallbacks := [7] }

/-- Live configuration for C5's witness. -/
def c5wLive : TrackerLocationConfig :=
  { interval_min_seconds := 60, interval_max_seconds := 600,
    min_publish := false, lock_trigger := true, process_ack := false,
    tower := true, gnss := true, wps := false, enhance_loc := false, loc_cb := false }

/-- Shadow copy violating min <= max (min 500, max 100). -/
def c5wShadowBad : TrackerLocationConfig :=
  { interval_min_seconds := 500, interval_max_seconds := 100,
    min_publish := false, lock_trigger := false, process_ack := false,
    tower := false, gnss := false, wps := false, enhance_loc := false, loc_cb := false }

/-- Shadow copy passing validation, differing from the live copy everywhere. -/
def c5wShadowGood : TrackerLocationConfig :=
  { interval_min_seconds := 30, interval_max_seconds := 900,
    min_publish := true, lock_trigger := false, process_ack := true,
    tower := false, gnss := false, wps := true, enhance_loc := true, loc_cb := true }

/-- State for C6's witness: trigger "radius" already pending once. -/
def c6wSt : LocState :=
  { baseState with pending_triggers := ["radius"] }

/-- State entering C7's counterexample: trigger "radius" pending. -/
def c7st0 : LocState :=
  { baseState with pending_triggers := ["radius"] }

/-- First pass of C7's counterexample: cloud connection down, GNSS stable,
100 s after the last publish. -/
def c7env1 : LoopEnv :=
  { now := 100, connected := false, gnssState := .ON_LOCKED_STABLE,
    isFullWakeCycle := true, connectingTime := 300,
    retrySendResult := 0, newSendResult := 0, allocOk := true, composed := "body" }

/-- Second pass of C7's counterexample: connected, 700 s after the anchor. -/
def c7env2 : LoopEnv :=
  { c7env1 with now := 700, connected := true }

/-- Environment for C7's witness (TIME publish): connected, GNSS disabled. -/
def c7wEnv : LoopEnv :=
  { now := 700, connected := true, gnssState := .DISABLED,
    isFullWakeCycle := true, connectingTime := 300,
    retrySendResult := 0, newSendResult := 0, allocOk := true, composed := "w" }

/-- Environment for C7's witness (TRIGGERS publish). -/
def c7wEnv2 : LoopEnv :=
  { c7wEnv with now := 100 }

/-- State for C7's witness (TRIGGERS publish): one trigger pending. -/
def c7wSt2 : LocState :=
  { baseState with pending_triggers := ["x"] }

/-- Configuration for C8's counterexample: interval_min = 10 s. -/
def c8ctrCfg : TrackerLocationConfig :=
  { cfgMinMax with interval_min_seconds := 10 }

/-- State for C8's counterexample: a trigger pending, stored early wake 0. -/
def c8ctrSt : LocState :=
  { baseState with pending_triggers := ["x"] }

/-- Access point for C9's witness. -/
def c9wAp : WiFiAccessPoint := { bssid := "001122334455", channel := 1, rssi := -50 }

/-- State for C10's witness: immediate request pending with its trigger
queued, nonzero clocks, one registered and one pending callback. -/
def c10wSt : LocState :=
  { baseState with
    pending_immediate := true
    pending_triggers := ["user"]
    last_location_publish_sec := 11
    monotonic_publish_sec := 22
    locPubCallbacks := [3]
    pendingLocPubCallbacks := [4] }

/-- Environment for C10's witness: cloud connection down. -/
def c10wEnv : LoopEnv :=
  { now := 100, connected := false, gnssState := .OFF,
    isFullWakeCycle := true, connectingTime := 300,
    retrySendResult := 0, newSendResult := 0, allocOk := true, composed := "b" }

/-- Subtracting zero in 32-bit arithmetic only reduces mod 2^32. -/
lemma sub32_zero (a : Nat) : sub32 a 0 = a % w32 := by
  simp [sub32, Nat.add_mod_left]

/-- Subtracting zero is the identity below 2^32. -/
lemma sub32_eq_of_lt (a : Nat) (h : a < w32) : sub32 a 0 = a := by
  rw [sub32_zero, Nat.mod_eq_of_lt h]

/-- Shape of the pending-trigger list after one `triggerLocPub`. -/
lemma triggerLocPub_triggers (ty : Trigger) (s : String) (st : LocState) :
    (triggerLocPub ty s st).pending_triggers =
      if st.pending_triggers.contains s then st.pending_triggers
      else st.pending_triggers ++ [s] := by
  unfold triggerLocPub
  by_cases hty : ty = Trigger.IMMEDIATE <;>
    by_cases hc : st.pending_triggers.contains s = true <;>
      (simp [hty, hc]; try (split <;> rfl))

/-- One `triggerLocPub` of a name with at most one occurrence leaves
exactly one occurrence. -/
lemma triggerLocPub_count (ty : Trigger) (s : String) (st : LocState)
    (hc : st.pending_triggers.count s ≤ 1) :
    (triggerLocPub ty s st).pending_triggers.count s = 1 := by
  rw [triggerLocPub_triggers]
  split
  · rename_i h
    have hm : s ∈ st.pending_triggers := List.elem_iff.mp h
    have := List.count_pos_iff.mpr hm
    omega
  · rename_i h
    have hm : s ∉ st.pending_triggers := fun hmem => h (List.elem_iff.mpr hmem)
    rw [List.count_append, List.count_eq_zero.mpr hm, List.count_singleton]
    simp

/-- Any positive number of repeated requests leaves exactly one occurrence. -/
lemma requestN_count (ty : Trigger) (name : String) (st : LocState) (m : Nat)
    (hc : st.pending_triggers.count name ≤ 1) :
    (requestN (m + 1) ty name st).pending_triggers.count name = 1 := by
  induction m with
  | zero => exact triggerLocPub_count ty name st hc
  | succ k ih =>
    exact triggerLocPub_count ty name (requestN (k + 1) ty name st) ih.le

/-- `location_publish` touches only the retry buffer and the pending
completion-callback list. -/
lemma location_publish_frame (r : Int) (c : String) (a : Bool) (s : LocState) :
    ((location_publish r c a s).1.pending_immediate = s.pending_immediate)
    ∧ ((location_publish r c a s).1.pending_triggers = s.pending_triggers)
    ∧ ((location_publish r c a s).1.first_publish = s.first_publish)
    ∧ ((location_publish r c a s).1.pending_first_publish = s.pending_first_publish)
    ∧ ((location_publish r c a s).1.newMonotonic = s.newMonotonic)
    ∧ ((location_publish r c a s).1.last_location_publish_sec = s.last_location_publish_sec)
    ∧ ((location_publish r c a s).1.monotonic_publish_sec = s.monotonic_publish_sec)
    ∧ ((location_publish r c a s).1.locPubCallbacks = s.locPubCallbacks) := by
  unfold location_publish issue_location_publish_callbacks
  (repeat' split) <;> simp_all

/-- The evaluation snapshot is unchanged by a retry resend. -/
lemma evaluatePublish_location_publish (cfg : TrackerLocationConfig) (ct now : Nat)
    (r : Int) (c : String) (a : Bool) (s : LocState) :
    evaluatePublish cfg ct now (location_publish r c a s).1 =
      evaluatePublish cfg ct now s := by
  unfold location_publish issue_location_publish_callbacks
  (repeat' split) <;> rfl

/-- The decision switch leaves the first-publish flags and both time
anchors unchanged. -/
lemma loopDecide_frame (r : EvaluationResults) (g : GnssState) (st : LocState) :
    ((loopDecide r g st).1.first_publish = st.first_publish)
    ∧ ((loopDecide r g st).1.pending_first_publish = st.pending_first_publish)
    ∧ ((loopDecide r g st).1.monotonic_publish_sec = st.monotonic_publish_sec)
    ∧ ((loopDecide r g st).1.last_location_publish_sec = st.last_location_publish_sec) := by
  unfold loopDecide triggerLocPub
  (repeat' split) <;> (try simp_all) <;> (try (repeat' split)) <;> (try simp_all)

/-- On a TIME decision the switch does not touch `_newMonotonic`. -/
lemma loopDecide_newMonotonic_time (r : EvaluationResults) (g : GnssState)
    (st : LocState) (hr : r.reason = .TIME) :
    (loopDecide r g st).1.newMonotonic = st.newMonotonic := by
  unfold loopDecide triggerLocPub
  rw [hr]
  (repeat' split) <;> (try simp_all) <;> (try (repeat' split)) <;> (try simp_all)

/-- When a TRIGGERS or IMMEDIATE decision sets `publishNow`, it also sets
`_newMonotonic`. -/
lemma loopDecide_newMonotonic_pub (r : EvaluationResults) (g : GnssState)
    (st : LocState) (hr : r.reason = .TRIGGERS ∨ r.reason = .IMMEDIATE)
    (hpub : (loopDecide r g st).2 = true) :
    (loopDecide r g st).1.newMonotonic = true := by
  unfold loopDecide at hpub ⊢
  rcases hr with hr | hr
  · rw [hr] at hpub ⊢
    cases g <;> by_cases hlw : r.lockWait = false <;> simp_all
  · rw [hr] at hpub ⊢
    try simp

/-- Time bookkeeping of the publish block: the last-publish time becomes
`now`; the monotonic anchor is reset to `now` under the first-publish or
new-anchor guard and advanced by `interval_max` otherwise. -/
lemma loopPublishBlock_times (now : Nat) (r : Int) (c : String) (a : Bool)
    (cfg : TrackerLocationConfig) (st2 : LocState) :
    ((loopPublishBlock now r c a cfg st2).1.last_location_publish_sec = now)
    ∧ ((loopPublishBlock now r c a cfg st2).1.monotonic_publish_sec =
        if (st2.first_publish && !st2.pending_first_publish) || st2.newMonotonic then now
        else add32 st2.monotonic_publish_sec cfg.interval_max_seconds) := by
  unfold loopPublishBlock issue_location_publish_callbacks
  dsimp only
  (repeat' split) <;> simp_all [location_publish_frame]

/-- An evaluation that returns TIME passed the first-publish gate. -/
lemma evaluatePublish_reason_not_first (cfg : TrackerLocationConfig) (ct now : Nat)
    (st : LocState) (h : (evaluatePublish cfg ct now st).reason = .TIME) :
    (st.first_publish && !st.pending_first_publish) = false := by
  unfold evaluatePublish at h
  by_cases hi : st.pending_immediate = true
  · rw [if_pos hi] at h
    simp at h
  · rw [if_neg hi] at h
    by_cases hf : (st.first_publish && !st.pending_first_publish) = true
    · rw [if_pos hf] at h
      simp at h
    · simpa using hf

/-- Anchor behaviour of the post-retry part of the loop: when the pass
publishes, the last-publish time becomes `now`; a TIME decision (with the
new-anchor flag clear on entry) advances the anchor by `interval_max`,
while TRIGGERS and IMMEDIATE decisions reset it to `now`. -/
lemma loopTailCore_c7 (env : LoopEnv) (cfg : TrackerLocationConfig) (st1 : LocState)
    (hc : env.connected = true) (hm : st1.newMonotonic = false)
    (hpub : (loopTailCore env cfg st1).2.2 ≠ []) :
    ((loopTailCore env cfg st1).1.last_location_publish_sec = env.now)
    ∧ ((evaluatePublish cfg env.connectingTime env.now st1).reason = .TIME →
        (loopTailCore env cfg st1).1.monotonic_publish_sec =
          add32 st1.monotonic_publish_sec cfg.interval_max_seconds)
    ∧ ((evaluatePublish cfg env.connectingTime env.now st1).reason = .TRIGGERS ∨
       (evaluatePublish cfg env.connectingTime env.now st1).reason = .IMMEDIATE →
        (loopTailCore env cfg st1).1.monotonic_publish_sec = env.now) := by
  unfold loopTailCore at hpub ⊢
  dsimp only at hpub ⊢
  rw [hc] at hpub ⊢
  simp only [Bool.and_true] at hpub ⊢
  set r := evaluatePublish cfg env.connectingTime env.now st1 with hrdef
  set stg := if (!env.isFullWakeCycle && r.networkNeeded) = true then
      { st1 with gnssStartedSec := env.now } else st1 with hstg
  set d := loopDecide r env.gnssState stg with hddef
  have hstg_fields : stg.first_publish = st1.first_publish
      ∧ stg.pending_first_publish = st1.pending_first_publish
      ∧ stg.monotonic_publish_sec = st1.monotonic_publish_sec
      ∧ stg.newMonotonic = st1.newMonotonic := by
    rw [hstg]
    split <;> exact ⟨rfl, rfl, rfl, rfl⟩
  by_cases hd2 : d.2 = true
  · simp only [hd2, if_true] at hpub ⊢
    have hbt := loopPublishBlock_times env.now env.newSendResult env.composed
      env.allocOk cfg d.1
    have hfrm := loopDecide_frame r env.gnssState stg
    rw [← hddef] at hfrm
    refine ⟨hbt.1, ?_, ?_⟩
    · intro hr
      rw [hbt.2]
      have hnm : d.1.newMonotonic = stg.newMonotonic :=
        loopDecide_newMonotonic_time r env.gnssState stg hr
      have hguard : ((d.1.first_publish && !d.1.pending_first_publish)
          || d.1.newMonotonic) = false := by
        rw [hnm, hfrm.1, hfrm.2.1, hstg_fields.1, hstg_fields.2.1,
          hstg_fields.2.2.2, hm]
        rw [evaluatePublish_reason_not_first cfg env.connectingTime env.now st1 hr]
        rfl
      rw [if_neg (by rw [hguard]; exact Bool.false_ne_true)]
      rw [hfrm.2.2.1, hstg_fields.2.2.1]
    · intro hr
      rw [hbt.2]
      have hnm : d.1.newMonotonic = true :=
        loopDecide_newMonotonic_pub r env.gnssState stg hr hd2
      rw [if_pos (by rw [hnm, Bool.or_true])]
  · rw [if_neg hd2] at hpub
    exact absurd rfl hpub

/-- Evaluation of the C2 snapshot family: TRIGGERS once 60 s have elapsed,
otherwise NONE with `networkNeeded` exactly from 60 - lead onwards. -/
lemma c2_eval (t lead ct : Nat) (hl : lead < 60) (ht : t < 600) :
    evaluatePublish cfgMinMax ct t (c2state lead) =
      if 60 ≤ t then
        { reason := .TRIGGERS, networkNeeded := true,
          lockWait := decide (t - 60 < LockTimeoutSec) }
      else
        { reason := .NONE, networkNeeded := decide (60 - lead ≤ t), lockWait := false } := by
  have hs : sub32 t 0 = t := sub32_eq_of_lt t (by unfold w32; omega)
  simp only [evaluatePublish, c2state, cfgMinMax, baseState, hs]
  simp only [Bool.false_eq_true, if_false, Bool.false_and, Bool.not_eq_true]
  rw [if_neg (by omega : ¬ ((600:Nat) ≠ 0 ∧ t ≥ 600))]
  rw [if_pos (by omega : (600:Nat) > lead), if_pos (by omega : (60:Nat) > lead)]
  by_cases h60 : 60 ≤ t
  · rw [if_pos (⟨by simp, Or.inr h60⟩ : ["user"] ≠ [] ∧ ((60:Nat) = 0 ∨ t ≥ 60)), if_pos h60]
  · rw [if_neg (fun hcon => h60 (hcon.2.resolve_left (by omega))), if_neg h60]
    congr 1
    rw [show decide ((600:Nat) ≠ 0 ∧ t ≥ 600 - lead) = false from by
      rw [decide_eq_false_iff_not]; omega]
    rw [Bool.false_or, decide_eq_decide]
    constructor
    · intro h
      exact le_trans (by omega) (h.2.resolve_left (by omega))
    · intro h
      exact ⟨by simp, Or.inr (by omega)⟩

/-- C1 counterexample: with interval_max = 5 and earlyWakeLead = 5 the
claim's floored threshold is max(5 - 5, 0) = 0 and the elapsed 3 s exceed
it, yet `evaluatePublish` reports `networkNeeded = false`: the source skips
the subtraction (instead of flooring at 0) whenever the lead is not
strictly below the max interval. -/
theorem c1_counterexample :
    c1ctrCfg.interval_max_seconds - c1ctrSt.nextEarlyWake ≤
      sub32 3 c1ctrSt.monotonic_publish_sec
    ∧ (evaluatePublish c1ctrCfg 300 3 c1ctrSt).networkNeeded = false := by
  constructor
  · decide
  · rfl

/-- C1 (amended): for a snapshot with no pending immediate request, the
first publish completed and interval_max nonzero, `evaluatePublish` uses
the threshold interval_max - earlyWakeLead when the lead is smaller than
interval_max and interval_max itself otherwise (the subtraction is skipped,
not floored at 0); it marks `networkNeeded` when elapsed-since-anchor
reaches that threshold, and once elapsed-since-anchor reaches interval_max
it returns TIME with `networkNeeded = true` and
`lockWait = (overshoot < lock-timeout budget)`. -/
theorem c1_theorem (cfg : TrackerLocationConfig) (ct now : Nat) (st : LocState)
    (h1 : st.pending_immediate = false)
    (h2 : st.first_publish = false)
    (h3 : cfg.interval_max_seconds ≠ 0) :
    ((if cfg.interval_max_seconds > st.nextEarlyWake
        then cfg.interval_max_seconds - st.nextEarlyWake
        else cfg.interval_max_seconds) ≤ sub32 now st.monotonic_publish_sec →
      (evaluatePublish cfg ct now st).networkNeeded = true)
    ∧ (cfg.interval_max_seconds ≤ sub32 now st.monotonic_publish_sec →
      evaluatePublish cfg ct now st =
        { reason := .TIME, networkNeeded := true,
          lockWait := decide (sub32 now st.monotonic_publish_sec -
            cfg.interval_max_seconds < LockTimeoutSec) }) := by
  unfold evaluatePublish
  simp only [h1, h2, Bool.false_and, Bool.false_eq_true, if_false, Bool.not_eq_true]
  constructor
  · intro h
    split
    · rfl
    · split
      · rfl
      · simp only []
        rw [Bool.or_eq_true, decide_eq_true_iff]
        left
        exact ⟨h3, h⟩
  · intro h
    split
    · rfl
    · rename_i hcon
      exact absurd ⟨h3, h⟩ hcon

/-- C1 witness: with interval_max = 600, lead = 10 and 700 s elapsed since
the anchor, both parts of the amended claim evaluate concretely. -/
theorem c1_witness :
    ((evaluatePublish cfgMinMax 300 700 c1wSt).networkNeeded = true)
    ∧ (evaluatePublish cfgMinMax 300 700 c1wSt =
        { reason := .TIME, networkNeeded := true,
          lockWait := decide (sub32 700 c1wSt.monotonic_publish_sec -
            cfgMinMax.interval_max_seconds < LockTimeoutSec) }) :=
  ⟨(c1_theorem cfgMinMax 300 700 c1wSt rfl rfl (by decide)).1 (by decide),
   (c1_theorem cfgMinMax 300 700 c1wSt rfl rfl (by decide)).2 (by decide)⟩

/-- C2 counterexample: with min = 60, max = 600, a pending trigger and
earlyWakeLead = 10, the evaluator at t0 = 60 - 10 = 50 s after the last
publish returns reason NONE (with `networkNeeded = true`), not TRIGGERS as
the claim states. -/
theorem c2_counterexample :
    evaluatePublish cfgMinMax 300 (60 - 10) (c2state 10) =
      { reason := .NONE, networkNeeded := true, lockWait := false } := by
  decide

/-- C2 (amended): with interval_min = 60, interval_max = 600, a trigger
pending and earlyWakeLead < 60, `evaluatePublish` returns reason NONE at
every instant before 60 s have elapsed since the last publish; at
t0 = 60 - earlyWakeLead it reports `networkNeeded = true` (still with
reason NONE whenever the lead is positive), and from 60 s onwards it
returns TRIGGERS with `networkNeeded = true`. -/
theorem c2_theorem (t lead ct : Nat) (hl : lead < 60) (ht : t < 600) :
    (t < 60 → (evaluatePublish cfgMinMax ct t (c2state lead)).reason = .NONE)
    ∧ (t = 60 - lead → (evaluatePublish cfgMinMax ct t (c2state lead)).networkNeeded = true)
    ∧ (60 ≤ t → evaluatePublish cfgMinMax ct t (c2state lead) =
        { reason := .TRIGGERS, networkNeeded := true,
          lockWait := decide (t - 60 < LockTimeoutSec) }) := by
  rw [c2_eval t lead ct hl ht]
  refine ⟨?_, ?_, ?_⟩
  · intro h
    rw [if_neg (by omega)]
  · intro h
    by_cases h60 : 60 ≤ t
    · rw [if_pos h60]
    · rw [if_neg h60]
      simp only [decide_eq_true_iff]
      omega
  · intro h
    rw [if_pos h]

/-- C2 witness: lead 10 at t = 50 (reason NONE, networkNeeded true) and
t = 70 (TRIGGERS). -/
theorem c2_witness :
    (evaluatePublish cfgMinMax 300 50 (c2state 10)).reason = .NONE
    ∧ (evaluatePublish cfgMinMax 300 50 (c2state 10)).networkNeeded = true
    ∧ evaluatePublish cfgMinMax 300 70 (c2state 10) =
        { reason := .TRIGGERS, networkNeeded := true,
          lockWait := decide ((70:Nat) - 60 < LockTimeoutSec) } :=
  ⟨(c2_theorem 50 10 300 (by decide) (by decide)).1 (by decide),
   (c2_theorem 50 10 300 (by decide) (by decide)).2.1 (by decide),
   (c2_theorem 70 10 300 (by decide) (by decide)).2.2 (by decide)⟩

/-- C3: a FAILURE completion with a non-empty request text and no existing
retry buffer captures the text into the buffer and issues no callbacks;
after the retried send is accepted and completes with SUCCESS, the pending
completion callbacks have been invoked exactly once over the whole
sequence (all with SUCCESS) and the pending list is cleared. -/
theorem c3_theorem (st : LocState) (e composed : String)
    ( _he : e ≠ "") (h0 : st.retry_str = none) :
    (location_publish_cb .FAILURE (some e) true st).2 = []
    ∧ (location_publish_cb .FAILURE (some e) true st).1.retry_str = some e
    ∧ (location_publish 0 composed true (location_publish_cb .FAILURE (some e) true st).1).2 = []
    ∧ ((location_publish_cb .FAILURE (some e) true st).2
        ++ (location_publish 0 composed true (location_publish_cb .FAILURE (some e) true st).1).2
        ++ (location_publish_cb .SUCCESS (some e) true
              (location_publish 0 composed true
                (location_publish_cb .FAILURE (some e) true st).1).1).2)
        = st.pendingLocPubCallbacks.map
            (fun c => { cb := c, status := .SUCCESS, req_event := some e })
    ∧ (location_publish_cb .SUCCESS (some e) true
          (location_publish 0 composed true
            (location_publish_cb .FAILURE (some e) true st).1).1).1.pendingLocPubCallbacks
        = [] := by
  simp [location_publish_cb, location_publish, issue_location_publish_callbacks, h0, EBUSY]

/-- C3 witness: the failure-then-retry sequence on a state with two pending
completion callbacks. -/
theorem c3_witness :
    ((location_publish_cb .FAILURE (some "evt") true c3wSt).2 = [])
    ∧ ((location_publish_cb .FAILURE (some "evt") true c3wSt).1.retry_str = some "evt")
    ∧ ((location_publish_cb .SUCCESS (some "evt") true
          (location_publish 0 "body" true
            (location_publish_cb .FAILURE (some "evt") true c3wSt).1).1).1.pendingLocPubCallbacks
        = []) :=
  ⟨(c3_theorem c3wSt "evt" "body" (by decide) rfl).1,
   (c3_theorem c3wSt "evt" "body" (by decide) rfl).2.1,
   (c3_theorem c3wSt "evt" "body" (by decide) rfl).2.2.2.2⟩

/-- C4: a send returning -EBUSY with no retry buffer copies the composed
payload verbatim into the buffer and issues no callbacks; when the buffer
allocation fails instead, the pending completion callbacks are issued
immediately with FAILURE and the composed text as request. -/
theorem c4_theorem (st : LocState) (composed : String) (h0 : st.retry_str = none) :
    (location_publish (-EBUSY) composed true st =
      ({ st with retry_str := some composed }, []))
    ∧ (location_publish (-EBUSY) composed false st =
        ({ st with pendingLocPubCallbacks := [] },
         st.pendingLocPubCallbacks.map
           (fun c => { cb := c, status := .FAILURE, req_event := some composed }))) := by
  simp [location_publish, issue_location_publish_callbacks, h0]

/-- C4 witness: the -EBUSY branch on a state with one pending callback. -/
theorem c4_witness :
    location_publish (-EBUSY) "payload" true c4wSt =
      ({ c4wSt with retry_str := some "payload" }, []) :=
  (c4_theorem c4wSt "payload" rfl).1

/-- C5: a writing config transaction with no prior error is rejected with
-EINVAL and leaves the live state untouched when the shadow copy has
interval_min > interval_max; when the shadow passes validation the entire
shadow is copied into the live state. -/
theorem c5_theorem (live shadow : TrackerLocationConfig) :
    (shadow.interval_max_seconds < shadow.interval_min_seconds →
      exit_location_config_cb true 0 live shadow = (-EINVAL, live))
    ∧ (shadow.interval_min_seconds ≤ shadow.interval_max_seconds →
      exit_location_config_cb true 0 live shadow = (0, shadow)) := by
  constructor
  · intro h
    simp [exit_location_config_cb, h]
  · intro h
    have hn : ¬ shadow.interval_min_seconds > shadow.interval_max_seconds := by omega
    simp [exit_location_config_cb, hn]

/-- C5 witness: min = 500 / max = 100 is rejected with the live copy
unchanged; a valid shadow replaces the live copy wholesale. -/
theorem c5_witness :
    (exit_location_config_cb true 0 c5wLive c5wShadowBad = (-EINVAL, c5wLive))
    ∧ (exit_location_config_cb true 0 c5wLive c5wShadowGood = (0, c5wShadowGood)) :=
  ⟨(c5_theorem c5wLive c5wShadowBad).1 (by decide),
   (c5_theorem c5wLive c5wShadowGood).2 (by decide)⟩

/-- C6: requesting a trigger name any positive number of times starting
from a deduplicated pending set leaves exactly one occurrence of the name;
requesting a name already pending leaves the set unchanged; and the trig
array of the next built report carries the name exactly once. -/
theorem c6_theorem (ty : Trigger) (name : String) (st : LocState) (n : Nat)
    (hn : 1 ≤ n) (hc : st.pending_triggers.count name ≤ 1) :
    ((requestN n ty name st).pending_triggers.count name = 1)
    ∧ (name ∈ st.pending_triggers →
        (triggerLocPub ty name st).pending_triggers = st.pending_triggers)
    ∧ ((buildPublishTrig (requestN n ty name st).pending_triggers).1.count name = 1) := by
  obtain ⟨m, rfl⟩ : ∃ m, n = m + 1 := ⟨n - 1, by omega⟩
  have key := requestN_count ty name st m hc
  refine ⟨key, ?_, ?_⟩
  · intro hm
    rw [triggerLocPub_triggers, if_pos (List.elem_iff.mpr hm)]
  · have hne : (requestN (m + 1) ty name st).pending_triggers ≠ [] := by
      intro hnil
      rw [hnil] at key
      simp [List.count_nil] at key
    unfold buildPublishTrig
    rw [if_neg (by simpa [List.isEmpty_iff] using hne)]
    exact key

/-- C6 witness: two requests of "radius" on a state already holding it. -/
theorem c6_witness :
    ((requestN 2 .NORMAL "radius" c6wSt).pending_triggers.count "radius" = 1)
    ∧ ((triggerLocPub .NORMAL "radius" c6wSt).pending_triggers = c6wSt.pending_triggers)
    ∧ ((buildPublishTrig (requestN 2 .NORMAL "radius" c6wSt).pending_triggers).1.count
        "radius" = 1) :=
  ⟨(c6_theorem .NORMAL "radius" c6wSt 2 (by decide) (by decide)).1,
   (c6_theorem .NORMAL "radius" c6wSt 2 (by decide) (by decide)).2.1 (by decide),
   (c6_theorem .NORMAL "radius" c6wSt 2 (by decide) (by decide)).2.2⟩

/-- C7 counterexample: a disconnected pass that decides TRIGGERS leaves
`_newMonotonic` set; the next connected pass publishes with reason TIME yet
resets the anchor to the current uptime 700 instead of advancing it by
interval_max (0 + 600 = 600). -/
theorem c7_counterexample :
    (evaluatePublish cfgMinMax 300 700 (loopTail c7env1 cfgMinMax c7st0).1).reason = .TIME
    ∧ (loopTail c7env2 cfgMinMax (loopTail c7env1 cfgMinMax c7st0).1).2.2 ≠ []
    ∧ (loopTail c7env2 cfgMinMax (loopTail c7env1 cfgMinMax c7st0).1).1.monotonic_publish_sec
        = 700
    ∧ add32 (loopTail c7env1 cfgMinMax c7st0).1.monotonic_publish_sec
        cfgMinMax.interval_max_seconds = 600
    ∧ (700 : Nat) ≠ 600 := by
  refine ⟨by decide, by decide, by decide, by decide, by decide⟩

/-- C7 (amended): on a connected pass entered with the new-anchor flag
clear, every publish sets the last-publish time to the current uptime; a
publish decided TIME advances the monotonic anchor by exactly
interval_max_seconds, while a publish decided TRIGGERS or IMMEDIATE (the
first-publish case evaluates to TRIGGERS) resets the anchor to the current
uptime. -/
theorem c7_theorem (env : LoopEnv) (cfg : TrackerLocationConfig) (st0 : LocState)
    (hc : env.connected = true) (hm : st0.newMonotonic = false)
    (hpub : (loopTail env cfg st0).2.2 ≠ []) :
    ((loopTail env cfg st0).1.last_location_publish_sec = env.now)
    ∧ ((evaluatePublish cfg env.connectingTime env.now st0).reason = .TIME →
        (loopTail env cfg st0).1.monotonic_publish_sec =
          add32 st0.monotonic_publish_sec cfg.interval_max_seconds)
    ∧ ((evaluatePublish cfg env.connectingTime env.now st0).reason = .TRIGGERS ∨
       (evaluatePublish cfg env.connectingTime env.now st0).reason = .IMMEDIATE →
        (loopTail env cfg st0).1.monotonic_publish_sec = env.now) := by
  unfold loopTail at hpub ⊢
  dsimp only at hpub ⊢
  by_cases hretry : (st0.retry_str.isSome && env.connected) = true
  · rw [if_pos hretry] at hpub ⊢
    have hfr := location_publish_frame env.retrySendResult env.composed env.allocOk st0
    have hev := evaluatePublish_location_publish cfg env.connectingTime env.now
      env.retrySendResult env.composed env.allocOk st0
    have hcore := loopTailCore_c7 env cfg
      (location_publish env.retrySendResult env.composed env.allocOk st0).1 hc
      (by rw [hfr.2.2.2.2.1]; exact hm) hpub
    refine ⟨hcore.1, ?_, ?_⟩
    · intro hr
      rw [hcore.2.1 (by rw [hev]; exact hr)]
      rw [hfr.2.2.2.2.2.2.1]
    · intro hr
      exact hcore.2.2 (by rw [hev]; exact hr)
  · rw [if_neg hretry] at hpub ⊢
    exact loopTailCore_c7 env cfg st0 hc hm hpub

/-- C7 witness: a connected TIME publish at uptime 700 advances the anchor
by 600, and a connected TRIGGERS publish at uptime 100 resets it to 100. -/
theorem c7_witness :
    ((loopTail c7wEnv cfgMinMax baseState).1.last_location_publish_sec = (700 : Nat))
    ∧ ((loopTail c7wEnv cfgMinMax baseState).1.monotonic_publish_sec =
        add32 baseState.monotonic_publish_sec cfgMinMax.interval_max_seconds)
    ∧ ((loopTail c7wEnv2 cfgMinMax c7wSt2).1.monotonic_publish_sec = (100 : Nat)) :=
  ⟨(c7_theorem c7wEnv cfgMinMax baseState rfl rfl (by decide)).1,
   (c7_theorem c7wEnv cfgMinMax baseState rfl rfl (by decide)).2.1 (by decide),
   (c7_theorem c7wEnv2 cfgMinMax c7wSt2 rfl rfl (by decide)).2.2 (Or.inl (by decide))⟩

/-- C8 counterexample: in the non-full-wake branch with stored early wake 0
the lead becomes the connect timeout 300; the trigger target is
last + min = 10, which is not above the lead, so the source requests wake
at the raw target 10 — neither the claim's lead-subtracted value
(10 - 300, floored 0) nor a cancelled sleep (0). -/
theorem c8_counterexample :
    (onSleepPrepare c8ctrCfg 300 false 0 5 c8ctrSt).nextEarlyWake = 300
    ∧ (onSleepPrepare c8ctrCfg 300 false 0 5 c8ctrSt).requestedWake = 10
    ∧ (onSleepPrepare c8ctrCfg 300 false 0 5 c8ctrSt).requestedWake ≠ 0
    ∧ (onSleepPrepare c8ctrCfg 300 false 0 5 c8ctrSt).requestedWake ≠
        add32 c8ctrSt.last_location_publish_sec c8ctrCfg.interval_min_seconds - 300 := by
  refine ⟨by decide, by decide, by decide, by decide⟩

/-- C8 (amended): `onSleepPrepare` targets lastPublishTime + interval_min
when triggers are pending and lastPublishTime + interval_max otherwise,
subtracts the computed early-wake lead only when the lead is smaller than
the target (otherwise the target is left unchanged), and requests wake
time 0 (a cancelled sleep) when the resulting wake time is already in the
past. -/
theorem c8_theorem (cfg : TrackerLocationConfig) (t_conn : Nat) (full : Bool)
    (lastWakeMs now : Nat) (st : LocState) :
    (onSleepPrepare cfg t_conn full lastWakeMs now st).requestedWake =
      (let target := add32 st.last_location_publish_sec
         (if st.pending_triggers ≠ [] then cfg.interval_min_seconds
          else cfg.interval_max_seconds);
       let lead := (onSleepPrepare cfg t_conn full lastWakeMs now st).nextEarlyWake;
       let adjusted := if target > lead then target - lead else target;
       if adjusted < now then 0 else adjusted) := by
  unfold onSleepPrepare wakeAtSeconds
  dsimp only
  generalize sleepPrepareEarlyWake t_conn full lastWakeMs st = ew
  split <;> split <;> simp_all

/-- C9: the number of WiFi entries written by `buildWpsInfo` never exceeds
floor((budget - header-estimate) / per-entry-estimate), and nothing is
written when the budget does not exceed the header estimate, when that
quotient is 0, or when the scan returns no access points. -/
theorem c9_theorem (en : Bool) (size maxCollect : Nat) (scan : List WiFiAccessPoint) :
    (buildWpsInfo en size maxCollect scan).length ≤
      (size - ObjectEstimateWpsHeaderSize) / ObjectEstimateWpsDataSize
    ∧ (size ≤ ObjectEstimateWpsHeaderSize → buildWpsInfo en size maxCollect scan = [])
    ∧ ((size - ObjectEstimateWpsHeaderSize) / ObjectEstimateWpsDataSize = 0 →
        buildWpsInfo en size maxCollect scan = [])
    ∧ (scan = [] → buildWpsInfo en size maxCollect scan = []) := by
  unfold buildWpsInfo
  by_cases hen : en
  case neg => simp [hen]
  case pos =>
    simp only [hen, Bool.not_true, Bool.false_eq_true, if_false]
    by_cases hs : ObjectEstimateWpsHeaderSize ≥ size
    · simp [hs]
    · simp only [if_neg hs]
      by_cases hq : (size - ObjectEstimateWpsHeaderSize) / ObjectEstimateWpsDataSize = 0
      · simp [hq]
      · simp only [if_neg hq]
        refine ⟨?_, ?_, ?_, ?_⟩
        · split
          · simp
          · rw [List.length_take]
            exact Nat.min_le_left _ _
        · intro h
          exact absurd h hs
        · intro h
          exact absurd h hq
        · intro h
          subst h
          simp [wifi_cb_collect]

/-- C9 witness: budgets 200 (allows up to 3 entries), 5 (below the header
estimate), 30 (quotient 0) and an empty scan. -/
theorem c9_witness :
    ((buildWpsInfo true 200 20 [c9wAp]).length ≤
      ((200:Nat) - ObjectEstimateWpsHeaderSize) / ObjectEstimateWpsDataSize)
    ∧ buildWpsInfo true 5 20 [c9wAp] = []
    ∧ buildWpsInfo true 30 20 [c9wAp] = []
    ∧ buildWpsInfo true 200 20 ([] : List WiFiAccessPoint) = [] :=
  ⟨(c9_theorem true 200 20 [c9wAp]).1,
   (c9_theorem true 5 20 [c9wAp]).2.1 (by decide),
   (c9_theorem true 30 20 [c9wAp]).2.2.1 (by decide),
   (c9_theorem true 200 20 []).2.2.2 rfl⟩

/-- C10: a loop pass with a pending immediate request while the cloud
connection is down clears the pending-immediate flag but composes no
payload, issues no completion callbacks, and leaves the last-publish time,
the monotonic anchor and the pending trigger set unchanged. -/
theorem c10_theorem (env : LoopEnv) (cfg : TrackerLocationConfig) (st0 : LocState)
    (hi : st0.pending_immediate = true) (hc : env.connected = false) :
    ((loopTail env cfg st0).1.pending_immediate = false)
    ∧ ((loopTail env cfg st0).2.1 = [])
    ∧ ((loopTail env cfg st0).2.2 = [])
    ∧ ((loopTail env cfg st0).1.last_location_publish_sec = st0.last_location_publish_sec)
    ∧ ((loopTail env cfg st0).1.monotonic_publish_sec = st0.monotonic_publish_sec)
    ∧ ((loopTail env cfg st0).1.pending_triggers = st0.pending_triggers) := by
  unfold loopTail loopTailCore
  dsimp only
  rw [hc]
  simp only [Bool.and_false, Bool.false_eq_true, if_false]
  have hev : evaluatePublish cfg env.connectingTime env.now st0 =
      { reason := .IMMEDIATE, networkNeeded := true, lockWait := false } := by
    unfold evaluatePublish
    rw [if_pos hi]
  rw [hev]
  unfold loopDecide
  dsimp only
  simp only [Bool.and_false, Bool.false_eq_true, if_false]
  by_cases hfw : (!env.isFullWakeCycle && true) = true
  · rw [if_pos hfw]
    simp
  · rw [if_neg hfw]
    simp

/-- C10 witness: a disconnected pass on a state with a pending immediate
request and the trigger "user" queued. -/
theorem c10_witness :
    ((loopTail c10wEnv cfgMinMax c10wSt).1.pending_immediate = false)
    ∧ ((loopTail c10wEnv cfgMinMax c10wSt).2.1 = [])
    ∧ ((loopTail c10wEnv cfgMinMax c10wSt).2.2 = [])
    ∧ ((loopTail c10wEnv cfgMinMax c10wSt).1.last_location_publish_sec =
        c10wSt.last_location_publish_sec)
    ∧ ((loopTail c10wEnv cfgMinMax c10wSt).1.monotonic_publish_sec =
        c10wSt.monotonic_publish_sec)
    ∧ ((loopTail c10wEnv cfgMinMax c10wSt).1.pending_triggers = c10wSt.pending_triggers) :=
  c10_theorem c10wEnv cfgMinMax c10wSt rfl rfl

end TrackerLocation
